import Mathlib

/-!
Pong: a shallow embedding of `src/script.js`.

The simulation core of the game (classes `Paddle`, `Ball`, `Game` and the
start handler) is translated function by function.

Modelling conventions.

* JavaScript numbers are modelled by exact rationals `ℚ`; the decimal
  literals `1.1`, `0.1`, `0.08`, `0.5` are the rationals `11/10`, `1/10`,
  `2/25`, `1/2`.  Scores only ever go through `0` and `++`, so they are
  natural numbers.
* The canvas size is a pair of natural numbers (an HTML canvas has
  non-negative integer dimensions); it is global in the source and a field
  of the game state here.
* `setTimeout` callbacks scheduled by `Ball.reset` all carry the same
  closure (they assign a serve velocity to the one ball), so the timer queue
  is the number of pending serve callbacks.  `Math.random()` results are
  supplied by the event that fires a callback.
* Drawing has no effect on the simulation state; only `drawGameOver` is
  modelled, as the list of drawing commands it issues.  The writes of the
  score text into the page are not modelled.
-/

namespace Pong

/-! ## Constants -/

def PADDLE_WIDTH : ℚ := 5
def PADDLE_HEIGHT : ℚ := 50
def BALL_RADIUS : ℚ := 5
def PADDLE_SPEED : ℚ := 4
def WINNING_SCORE : ℕ := 5

/-! ## Data model -/

/-- The drawing surface: `canvas.width`, `canvas.height`. -/
structure Canvas where
  width : ℕ
  height : ℕ
deriving DecidableEq, Repr

/-- Class `Paddle`. -/
structure Paddle where
  x : ℚ
  y : ℚ
  width : ℚ
  height : ℚ
  dy : ℚ
  score : ℕ
deriving DecidableEq, Repr

/-- Class `Ball`. -/
structure Ball where
  x : ℚ
  y : ℚ
  radius : ℚ
  dx : ℚ
  dy : ℚ
deriving DecidableEq, Repr

/-- Constructor of `Paddle`. -/
def Paddle.new (x y : ℚ) : Paddle :=
  { x := x, y := y, width := PADDLE_WIDTH, height := PADDLE_HEIGHT, dy := 0, score := 0 }

/-- Method `Paddle.update`: move by `dy`, then clamp into the canvas. -/
def Paddle.update (c : Canvas) (p : Paddle) : Paddle :=
  let y1 := p.y + p.dy
  { p with y := max (min y1 ((c.height : ℚ) - p.height)) 0 }

/-- Method `Ball.reset`, the part that runs at once: the ball goes to the centre of
the canvas with zero velocity.  The call also schedules one serve callback;
the second component is the number of pending callbacks afterwards. -/
def Ball.reset (c : Canvas) (b : Ball) (timers : ℕ) : Ball × ℕ :=
  ({ b with x := (c.width : ℚ) / 2, y := (c.height : ℚ) / 2, dx := 0, dy := 0 }, timers + 1)

/-- The callback that `Ball.reset` hands to `setTimeout`; `r1` and `r2` are the
two results of `Math.random()`, in the order of the calls. -/
def Ball.serve (r1 r2 : ℚ) (b : Ball) : Ball :=
  { b with dx := if r1 > 1 / 2 then 3 else -3, dy := r2 * 4 - 2 }

/-- Constructor of `Ball`. -/
def Ball.new (c : Canvas) (x y : ℚ) (timers : ℕ) : Ball × ℕ :=
  Ball.reset c { x := x, y := y, radius := BALL_RADIUS, dx := 0, dy := 0 } timers

/-- Everything `Ball.update` writes: the ball, the two paddles (their scores)
and the timer queue. -/
structure Court where
  ball : Ball
  leftPaddle : Paddle
  rightPaddle : Paddle
  timers : ℕ
deriving DecidableEq, Repr

/-- Method `Ball.update`, the position integration and the wall test. -/
def Ball.integrate (c : Canvas) (b : Ball) : Ball :=
  let b1 := { b with x := b.x + b.dx, y := b.y + b.dy }
  if b1.y - b1.radius < 0 ∨ b1.y + b1.radius > (c.height : ℚ) then
    { b1 with dy := b1.dy * (-1) }
  else b1

/-- Method `Ball.update`, the left paddle test. -/
def Ball.hitLeft (leftPaddle : Paddle) (b : Ball) : Ball :=
  if b.dx < 0 ∧ b.x - b.radius < leftPaddle.x + leftPaddle.width ∧
      b.y > leftPaddle.y ∧ b.y < leftPaddle.y + leftPaddle.height then
    let collidePoint := b.y - (leftPaddle.y + leftPaddle.height / 2)
    { b with dx := b.dx * (-(11 / 10)), dy := collidePoint * (1 / 10),
             x := leftPaddle.x + leftPaddle.width + b.radius }
  else b

/-- Method `Ball.update`, the right paddle test. -/
def Ball.hitRight (rightPaddle : Paddle) (b : Ball) : Ball :=
  if b.dx > 0 ∧ b.x + b.radius > rightPaddle.x ∧
      b.y > rightPaddle.y ∧ b.y < rightPaddle.y + rightPaddle.height then
    let collidePoint := b.y - (rightPaddle.y + rightPaddle.height / 2)
    { b with dx := b.dx * (-(11 / 10)), dy := collidePoint * (1 / 10),
             x := rightPaddle.x - b.radius }
  else b

/-- Method `Ball.update`, the first scoring test (ball past the left edge). -/
def Ball.scoreRight (c : Canvas) (s : Court) : Court :=
  if s.ball.x - s.ball.radius < 0 then
    let r := Ball.reset c s.ball s.timers
    { s with rightPaddle := { s.rightPaddle with score := s.rightPaddle.score + 1 },
             ball := r.1, timers := r.2 }
  else s

/-- Method `Ball.update`, the second scoring test (ball past the right edge). -/
def Ball.scoreLeft (c : Canvas) (s : Court) : Court :=
  if s.ball.x + s.ball.radius > (c.width : ℚ) then
    let r := Ball.reset c s.ball s.timers
    { s with leftPaddle := { s.leftPaddle with score := s.leftPaddle.score + 1 },
             ball := r.1, timers := r.2 }
  else s

/-- Method `Ball.update(leftPaddle, rightPaddle)`: the five stages in source order. -/
def Ball.update (c : Canvas) (b : Ball) (leftPaddle rightPaddle : Paddle) (timers : ℕ) :
    Court :=
  let b1 := Ball.integrate c b
  let b2 := Ball.hitLeft leftPaddle b1
  let b3 := Ball.hitRight rightPaddle b2
  Ball.scoreLeft c (Ball.scoreRight c
    { ball := b3, leftPaddle := leftPaddle, rightPaddle := rightPaddle, timers := timers })

/-! ## The game -/

/-- One call on the 2D drawing context. -/
inductive DrawCmd where
  | fillStyle (style : String)
  | fillRect (x y w h : ℚ)
  | font (font : String)
  | textAlign (align : String)
  | fillText (text : String) (x y : ℚ)
deriving DecidableEq, Repr

/-- Class `Game`, together with the two globals its methods read and write:
the canvas size and the queue of pending serve callbacks. -/
structure Game where
  canvas : Canvas
  leftPaddle : Paddle
  rightPaddle : Paddle
  ball : Ball
  gameOver : Bool
  winner : Option String
  timers : ℕ
deriving DecidableEq, Repr

/-- The text a template literal prints for `this.winner` (which may be `null`). -/
def winnerText : Option String → String
  | some w => w
  | none => "null"

/-- Method `Game.drawGameOver`: the overlay, as the calls it makes in order. -/
def Game.drawGameOver (g : Game) : List DrawCmd :=
  let w : ℚ := g.canvas.width
  let h : ℚ := g.canvas.height
  [ DrawCmd.fillStyle "rgba(0, 0, 0, 0.7)",
    DrawCmd.fillRect 0 0 w h,
    DrawCmd.fillStyle "#fff",
    DrawCmd.font "24px \x27Press Start 2P\x27",
    DrawCmd.textAlign "center",
    DrawCmd.fillText "Game Over" (w / 2) (h / 2 - 40),
    DrawCmd.font "20px \x27Press Start 2P\x27",
    DrawCmd.fillText (winnerText g.winner ++ " wins!") (w / 2) (h / 2),
    DrawCmd.font "12px \x27Press Start 2P\x27",
    DrawCmd.fillText "Press \x27r\x27 to play again" (w / 2) (h / 2 + 40) ]

/-- Method `Game.resizeCanvas` on a constructed game (so `this.rightPaddle` exists).
`screen` is the client size of the `.screen` element, `none` when the page
has no such element.  Returns the new state and the drawing calls made. -/
def Game.resizeCanvas (screen : Option Canvas) (g : Game) : Game × List DrawCmd :=
  match screen with
  | some s =>
    let g1 := { g with canvas := { width := s.width, height := s.height } }
    let g2 := { g1 with
      rightPaddle := { g1.rightPaddle with x := (g1.canvas.width : ℚ) - PADDLE_WIDTH - 10 } }
    if g2.gameOver then (g2, g2.drawGameOver) else (g2, [])
  | none => (g, [])

/-- Constructor of `Game`.  `c0` is the size the canvas has before the call;
the constructor first runs `resizeCanvas`, at a point where neither
`this.rightPaddle` nor `this.gameOver` is defined, so only the canvas size
changes there. -/
def Game.new (c0 : Canvas) (screen : Option Canvas) : Game :=
  let c : Canvas := match screen with
    | some s => { width := s.width, height := s.height }
    | none => c0
  let b := Ball.new c ((c.width : ℚ) / 2) ((c.height : ℚ) / 2) 0
  { canvas := c,
    leftPaddle := Paddle.new 10 ((c.height : ℚ) / 2 - PADDLE_HEIGHT / 2),
    rightPaddle := Paddle.new ((c.width : ℚ) - PADDLE_WIDTH - 10)
      ((c.height : ℚ) / 2 - PADDLE_HEIGHT / 2),
    ball := b.1,
    gameOver := false,
    winner := none,
    timers := b.2 }

/-- Method `Game.update`: one frame of the simulation. -/
def Game.update (g : Game) : Game :=
  if g.gameOver then g
  else
    let lp := g.leftPaddle.update g.canvas
    let rp0 := { g.rightPaddle with
      y := g.rightPaddle.y +
        (g.ball.y - (g.rightPaddle.y + g.rightPaddle.height / 2)) * (2 / 25) }
    let rp := rp0.update g.canvas
    let s := Ball.update g.canvas g.ball lp rp g.timers
    let g1 := { g with leftPaddle := s.leftPaddle, rightPaddle := s.rightPaddle,
                       ball := s.ball, timers := s.timers }
    if g1.leftPaddle.score ≥ WINNING_SCORE ∨ g1.rightPaddle.score ≥ WINNING_SCORE then
      { g1 with gameOver := true,
                winner := some (if g1.leftPaddle.score ≥ WINNING_SCORE then "Player 1" else "CPU") }
    else g1

/-- Method `Game.resetGame`. -/
def Game.resetGame (g : Game) : Game :=
  let lp := { g.leftPaddle with score := 0 }
  let rp := { g.rightPaddle with score := 0 }
  let lp1 := { lp with y := (g.canvas.height : ℚ) / 2 - PADDLE_HEIGHT / 2 }
  let r := Ball.reset g.canvas g.ball g.timers
  { g with leftPaddle := lp1, rightPaddle := rp, gameOver := false, winner := none,
           ball := r.1, timers := r.2 }

/-- Method `Game.handleKeyDown`, with `key` the `e.key` of the event. -/
def Game.handleKeyDown (key : String) (g : Game) : Game :=
  if g.gameOver ∧ key = "r" then g.resetGame
  else if key = "w" then { g with leftPaddle := { g.leftPaddle with dy := -PADDLE_SPEED } }
  else if key = "s" then { g with leftPaddle := { g.leftPaddle with dy := PADDLE_SPEED } }
  else g

/-- Method `Game.handleKeyUp`. -/
def Game.handleKeyUp (key : String) (g : Game) : Game :=
  if key = "w" ∨ key = "s" then { g with leftPaddle := { g.leftPaddle with dy := 0 } }
  else g

/-- The closure `handlePress` of `initButtonControls`. -/
def Game.handlePress (direction : String) (g : Game) : Game :=
  { g with leftPaddle :=
      { g.leftPaddle with dy := if direction = "up" then -PADDLE_SPEED else PADDLE_SPEED } }

/-- The closure `handleRelease` of `initButtonControls`. -/
def Game.handleRelease (g : Game) : Game :=
  { g with leftPaddle := { g.leftPaddle with dy := 0 } }

/-- The two variables `game` and `gameRunning` of the initialisation block. -/
structure App where
  game : Option Game
  gameRunning : Bool
deriving DecidableEq, Repr

/-- Function `startOrRestartGame`; `c0` and `screen` are what a `Game` constructor
would find on the page. -/
def startOrRestartGame (c0 : Canvas) (screen : Option Canvas) (a : App) : App :=
  if !a.gameRunning then { game := some (Game.new c0 screen), gameRunning := true }
  else match a.game with
    | some g => if g.gameOver then { a with game := some g.resetGame } else a
    | none => a

/-- A pending serve callback runs: the oldest timer leaves the queue and
assigns the serve velocity.  Nothing happens when no callback is pending. -/
def Game.fireServe (r1 r2 : ℚ) (g : Game) : Game :=
  if g.timers = 0 then g
  else { g with ball := g.ball.serve r1 r2, timers := g.timers - 1 }

/-! ## Events and reachable states -/

/-- What can happen to a running game between two of its callbacks. -/
inductive Event where
  | frame
  | keyDown (key : String)
  | keyUp (key : String)
  | press (direction : String)
  | release
  | start
  | resize (screen : Option Canvas)
  | serve (r1 r2 : ℚ)
deriving DecidableEq, Repr

/-- The results of `Math.random()` lie in `[0, 1)`. -/
def Event.Valid : Event → Prop
  | Event.serve r1 r2 => 0 ≤ r1 ∧ r1 < 1 ∧ 0 ≤ r2 ∧ r2 < 1
  | _ => True

instance : DecidablePred Event.Valid
  | Event.frame => isTrue trivial
  | Event.keyDown _ => isTrue trivial
  | Event.keyUp _ => isTrue trivial
  | Event.press _ => isTrue trivial
  | Event.release => isTrue trivial
  | Event.start => isTrue trivial
  | Event.resize _ => isTrue trivial
  | Event.serve r1 r2 => inferInstanceAs (Decidable (0 ≤ r1 ∧ r1 < 1 ∧ 0 ≤ r2 ∧ r2 < 1))

/-- The effect of one event on a running game.  A frame is `loop`, whose `draw`
leaves the state alone; the start button runs `startOrRestartGame` with
`gameRunning` already set. -/
def Game.step (e : Event) (g : Game) : Game :=
  match e with
  | Event.frame => g.update
  | Event.keyDown k => g.handleKeyDown k
  | Event.keyUp k => g.handleKeyUp k
  | Event.press d => g.handlePress d
  | Event.release => g.handleRelease
  | Event.start =>
    match (startOrRestartGame g.canvas none { game := some g, gameRunning := true }).game with
    | some g1 => g1
    | none => g
  | Event.resize screen => (g.resizeCanvas screen).1
  | Event.serve r1 r2 => g.fireServe r1 r2

/-- Run a list of events, first to last. -/
def Game.run (es : List Event) (g : Game) : Game :=
  es.foldl (fun acc e => acc.step e) g

/-- States a game can be in: a freshly constructed game, then any number of
events. -/
inductive Reachable : Game → Prop where
  | init (c0 : Canvas) (screen : Option Canvas) : Reachable (Game.new c0 screen)
  | step (e : Event) (g : Game) : Reachable g → e.Valid → Reachable (g.step e)

/-! ## Scenarios -/

/-- A 600 x 400 game at 4 : 3, the ball one frame from leaving on the right,
out of the right paddle's reach. -/
def leftAboutToWin : Game :=
  { canvas := ⟨600, 400⟩,
    leftPaddle := { Paddle.new 10 175 with score := 4 },
    rightPaddle := { Paddle.new 585 300 with score := 3 },
    ball := ⟨594, 100, 5, 3, 0⟩,
    gameOver := false, winner := none, timers := 0 }

/-- A 600 x 400 game at 4 : 4, the ball one frame from leaving on the left, out
of the left paddle's reach. -/
def rightAboutToWin : Game :=
  { canvas := ⟨600, 400⟩,
    leftPaddle := { Paddle.new 10 300 with score := 4 },
    rightPaddle := { Paddle.new 585 75 with score := 4 },
    ball := ⟨6, 100, 5, -3, 0⟩,
    gameOver := false, winner := none, timers := 0 }

/-- A fresh 600 x 400 game, two frames after its first serve (to the left and
downwards). -/
def rally : Game :=
  (Game.new ⟨300, 150⟩ (some ⟨600, 400⟩)).run
    [Event.serve (1 / 4) (7 / 8), Event.frame, Event.frame]

/-- A fresh game on a canvas 60 wide and 200 high. -/
def raceStart : Game := Game.new ⟨300, 150⟩ (some ⟨60, 200⟩)

/-- The player holds `w`, so the left paddle leaves the ball's line while the
first serve is pending. -/
def raceOpening : List Event := Event.keyDown "w" :: List.replicate 7 Event.frame

/-- One point for the right side: a serve to the left along the centre line,
then the nine frames the ball needs to pass the left edge. -/
def racePoint : List Event := Event.serve 0 (1 / 2) :: List.replicate 9 Event.frame

/-- Four points for the right side and the fifth serve, up to the frame before
the ball passes the left edge. -/
def raceLead : List Event :=
  raceOpening ++ racePoint ++ racePoint ++ racePoint ++ racePoint ++
    Event.serve 0 (1 / 2) :: List.replicate 8 Event.frame

/-- The state one frame before the match ends. -/
def raceMatchPoint : Game := raceStart.run raceLead

/-- The frame in which the right side scores its fifth point: the scoring
`reset` schedules a serve and the match ends. -/
def raceEnd : Game := raceMatchPoint.step Event.frame

/-- The player presses `r` before the pending serve has fired. -/
def raceRestarted : Game := raceEnd.step (Event.keyDown "r")

/-- The first pending serve fires. -/
def raceFirstServe : Game := raceRestarted.step (Event.serve (3 / 4) (1 / 2))

/-- One frame later the ball is in flight. -/
def raceInFlight : Game := raceFirstServe.step Event.frame

/-- The second pending serve fires. -/
def raceSecondServe : Game := raceInFlight.step (Event.serve 0 0)

/-! ## Frame lemmas: what the stages of `Ball.update` leave alone -/

theorem Paddle.update_score (c : Canvas) (p : Paddle) : (p.update c).score = p.score := rfl

theorem Paddle.update_height (c : Canvas) (p : Paddle) : (p.update c).height = p.height := rfl

theorem Paddle.update_dy (c : Canvas) (p : Paddle) : (p.update c).dy = p.dy := rfl

theorem Paddle.update_y (c : Canvas) (p : Paddle) :
    (p.update c).y = max (min (p.y + p.dy) ((c.height : ℚ) - p.height)) 0 := rfl

theorem Ball.integrate_radius (c : Canvas) (b : Ball) : (Ball.integrate c b).radius = b.radius := by
  unfold Ball.integrate; dsimp only; split <;> rfl

theorem Ball.integrate_dx (c : Canvas) (b : Ball) : (Ball.integrate c b).dx = b.dx := by
  unfold Ball.integrate; dsimp only; split <;> rfl

theorem Ball.integrate_x (c : Canvas) (b : Ball) : (Ball.integrate c b).x = b.x + b.dx := by
  unfold Ball.integrate; dsimp only; split <;> rfl

theorem Ball.integrate_y (c : Canvas) (b : Ball) : (Ball.integrate c b).y = b.y + b.dy := by
  unfold Ball.integrate; dsimp only; split <;> rfl

theorem Ball.hitLeft_radius (p : Paddle) (b : Ball) : (Ball.hitLeft p b).radius = b.radius := by
  unfold Ball.hitLeft; split <;> rfl

theorem Ball.hitRight_radius (p : Paddle) (b : Ball) : (Ball.hitRight p b).radius = b.radius := by
  unfold Ball.hitRight; split <;> rfl

theorem Ball.scoreRight_leftPaddle (c : Canvas) (s : Court) :
    (Ball.scoreRight c s).leftPaddle = s.leftPaddle := by
  unfold Ball.scoreRight; split <;> rfl

theorem Ball.scoreLeft_rightPaddle (c : Canvas) (s : Court) :
    (Ball.scoreLeft c s).rightPaddle = s.rightPaddle := by
  unfold Ball.scoreLeft; split <;> rfl

theorem Ball.scoreRight_radius (c : Canvas) (s : Court) :
    (Ball.scoreRight c s).ball.radius = s.ball.radius := by
  unfold Ball.scoreRight; split <;> rfl

/-- The first scoring test either leaves the court alone, or adds one to the
right score and puts the ball at the centre. -/
theorem Ball.scoreRight_cases (c : Canvas) (s : Court) :
    Ball.scoreRight c s = s ∨
      ((Ball.scoreRight c s).rightPaddle = { s.rightPaddle with score := s.rightPaddle.score + 1 } ∧
        (Ball.scoreRight c s).ball.x = (c.width : ℚ) / 2) := by
  unfold Ball.scoreRight
  split
  · right; exact ⟨rfl, rfl⟩
  · left; rfl

/-- The second scoring test either leaves the court alone, or adds one to the
left score. -/
theorem Ball.scoreLeft_cases (c : Canvas) (s : Court) :
    Ball.scoreLeft c s = s ∨
      ((s.ball.x + s.ball.radius > (c.width : ℚ)) ∧
        (Ball.scoreLeft c s).leftPaddle = { s.leftPaddle with score := s.leftPaddle.score + 1 }) := by
  unfold Ball.scoreLeft
  split
  · rename_i h; right; exact ⟨h, rfl⟩
  · left; rfl

/-- `Ball.update` changes nothing of the left paddle but its score, by at most one. -/
theorem Ball.update_leftPaddle (c : Canvas) (b : Ball) (lp rp : Paddle) (t : ℕ) :
    (Ball.update c b lp rp t).leftPaddle = lp ∨
      (Ball.update c b lp rp t).leftPaddle = { lp with score := lp.score + 1 } := by
  unfold Ball.update
  dsimp only
  rcases Ball.scoreLeft_cases c (Ball.scoreRight c
    { ball := Ball.hitRight rp (Ball.hitLeft lp (Ball.integrate c b)),
      leftPaddle := lp, rightPaddle := rp, timers := t }) with h | ⟨_, h⟩
  · left; rw [h, Ball.scoreRight_leftPaddle]
  · right; rw [h, Ball.scoreRight_leftPaddle]

/-- `Ball.update` changes nothing of the right paddle but its score, by at most one. -/
theorem Ball.update_rightPaddle (c : Canvas) (b : Ball) (lp rp : Paddle) (t : ℕ) :
    (Ball.update c b lp rp t).rightPaddle = rp ∨
      (Ball.update c b lp rp t).rightPaddle = { rp with score := rp.score + 1 } := by
  unfold Ball.update
  dsimp only
  rw [Ball.scoreLeft_rightPaddle]
  rcases Ball.scoreRight_cases c
    { ball := Ball.hitRight rp (Ball.hitLeft lp (Ball.integrate c b)),
      leftPaddle := lp, rightPaddle := rp, timers := t } with h | ⟨h, _⟩
  · left; rw [h]
  · right; rw [h]

/-! ## C1: scoring in one `Ball.update` -/

/-- C1 fails as stated: on a canvas 8 wide, the ball of a fresh game (at the
centre, x = 4, radius 5) is past both edges at once, and one call of
`Ball.update` adds a point to both scores. -/
theorem Ball.update_scores_both_on_narrow_canvas :
    (Ball.update ⟨8, 100⟩ ⟨4, 50, 5, 0, 0⟩ (Paddle.new 10 25) (Paddle.new (-7) 25) 0).leftPaddle.score
        = (Paddle.new 10 25).score + 1 ∧
    (Ball.update ⟨8, 100⟩ ⟨4, 50, 5, 0, 0⟩ (Paddle.new 10 25) (Paddle.new (-7) 25) 0).rightPaddle.score
        = (Paddle.new (-7) 25).score + 1 := by
  decide!

/-- C1, amended: when the canvas is at least as wide as the ball's diameter, one
call of `Ball.update` leaves both scores alone or adds one point to exactly
one of them. -/
theorem Ball.update_scoring_exclusive (c : Canvas) (b : Ball) (lp rp : Paddle) (t : ℕ)
    (hw : 2 * b.radius ≤ (c.width : ℚ)) :
    ((Ball.update c b lp rp t).leftPaddle.score = lp.score ∧
        (Ball.update c b lp rp t).rightPaddle.score = rp.score) ∨
    ((Ball.update c b lp rp t).leftPaddle.score = lp.score + 1 ∧
        (Ball.update c b lp rp t).rightPaddle.score = rp.score) ∨
    ((Ball.update c b lp rp t).leftPaddle.score = lp.score ∧
        (Ball.update c b lp rp t).rightPaddle.score = rp.score + 1) := by
  have hr : (Ball.hitRight rp (Ball.hitLeft lp (Ball.integrate c b))).radius = b.radius := by
    rw [Ball.hitRight_radius, Ball.hitLeft_radius, Ball.integrate_radius]
  unfold Ball.update
  dsimp only
  generalize hs : Court.mk (Ball.hitRight rp (Ball.hitLeft lp (Ball.integrate c b))) lp rp t = s
  have hl : s.leftPaddle = lp := by rw [← hs]
  have hrp : s.rightPaddle = rp := by rw [← hs]
  have hrad : s.ball.radius = b.radius := by rw [← hs]; exact hr
  rw [Ball.scoreLeft_rightPaddle]
  rcases Ball.scoreRight_cases c s with h1 | ⟨h1, hx⟩
  · rw [h1]
    rcases Ball.scoreLeft_cases c s with h2 | ⟨_, h2⟩
    · left; rw [h2, hl, hrp]; exact ⟨rfl, rfl⟩
    · right; left; rw [h2, hl, hrp]; exact ⟨rfl, rfl⟩
  · rcases Ball.scoreLeft_cases c (Ball.scoreRight c s) with h2 | ⟨hgt, _⟩
    · right; right
      rw [h2, Ball.scoreRight_leftPaddle, h1, hl, hrp]; exact ⟨rfl, rfl⟩
    · exfalso
      rw [hx, Ball.scoreRight_radius, hrad] at hgt
      linarith

/-- Witness: the amended C1 at the ball of a fresh 600 x 400 game. -/
theorem Ball.update_scoring_exclusive_witness :
    ((Ball.update ⟨600, 400⟩ ⟨300, 200, 5, 0, 0⟩ (Paddle.new 10 175) (Paddle.new 585 175) 1).leftPaddle.score
        = (Paddle.new 10 175).score ∧
      (Ball.update ⟨600, 400⟩ ⟨300, 200, 5, 0, 0⟩ (Paddle.new 10 175) (Paddle.new 585 175) 1).rightPaddle.score
        = (Paddle.new 585 175).score) ∨
    ((Ball.update ⟨600, 400⟩ ⟨300, 200, 5, 0, 0⟩ (Paddle.new 10 175) (Paddle.new 585 175) 1).leftPaddle.score
        = (Paddle.new 10 175).score + 1 ∧
      (Ball.update ⟨600, 400⟩ ⟨300, 200, 5, 0, 0⟩ (Paddle.new 10 175) (Paddle.new 585 175) 1).rightPaddle.score
        = (Paddle.new 585 175).score) ∨
    ((Ball.update ⟨600, 400⟩ ⟨300, 200, 5, 0, 0⟩ (Paddle.new 10 175) (Paddle.new 585 175) 1).leftPaddle.score
        = (Paddle.new 10 175).score ∧
      (Ball.update ⟨600, 400⟩ ⟨300, 200, 5, 0, 0⟩ (Paddle.new 10 175) (Paddle.new 585 175) 1).rightPaddle.score
        = (Paddle.new 585 175).score + 1) :=
  Ball.update_scoring_exclusive ⟨600, 400⟩ ⟨300, 200, 5, 0, 0⟩ (Paddle.new 10 175)
    (Paddle.new 585 175) 1 (by decide!)

/-! ## C2: the bounce off the left paddle -/

/-- C2 fails as stated: on a canvas 30 wide the paddles of a fresh game sit at
x = 10 and x = 15.  The ball served to the left from the centre (x = 15,
y = 100, dx = -3) meets every condition of the claim after integration,
bounces off the left paddle (dx = 3.3, x = 20), and in the same call bounces
off the right paddle too: the call ends with dx = -3.63, not 3.3. -/
theorem Ball.update_double_bounce_on_narrow_canvas :
    ((-3 : ℚ) < 0 ∧ (15 : ℚ) + (-3) - 5 < (Paddle.new 10 75).x + (Paddle.new 10 75).width ∧
      (Paddle.new 10 75).y < 100 + 0 ∧
      (100 : ℚ) + 0 < (Paddle.new 10 75).y + (Paddle.new 10 75).height) ∧
    (Ball.update ⟨30, 200⟩ ⟨15, 100, 5, -3, 0⟩ (Paddle.new 10 75) (Paddle.new 15 75) 0).ball.dx
      = -(363 / 100) ∧
    (Ball.update ⟨30, 200⟩ ⟨15, 100, 5, -3, 0⟩ (Paddle.new 10 75) (Paddle.new 15 75) 0).ball.dx
      ≠ -(11 / 10) * (-3) := by
  decide!

/-- C2, amended: if after integration the ball moves left, its left edge is left
of the left paddle's right edge and its centre is strictly inside the
paddle's vertical span, and moreover the ball placed flush against the left
paddle does not touch the right paddle and is not past either side of the
canvas, then `Ball.update` ends with dx equal to -1.1 times the dx it
started with. -/
theorem Ball.update_left_bounce (c : Canvas) (b : Ball) (lp rp : Paddle) (t : ℕ)
    (hdx : b.dx < 0)
    (hx : b.x + b.dx - b.radius < lp.x + lp.width)
    (hy1 : lp.y < b.y + b.dy)
    (hy2 : b.y + b.dy < lp.y + lp.height)
    (hright : ¬ (lp.x + lp.width + b.radius + b.radius > rp.x ∧
      b.y + b.dy > rp.y ∧ b.y + b.dy < rp.y + rp.height))
    (hleftEdge : 0 ≤ lp.x + lp.width)
    (hrightEdge : lp.x + lp.width + b.radius + b.radius ≤ (c.width : ℚ)) :
    (Ball.update c b lp rp t).ball.dx = -(11 / 10) * b.dx := by
  have h1 : Ball.hitLeft lp (Ball.integrate c b) =
      { Ball.integrate c b with
        dx := b.dx * (-(11 / 10)),
        dy := (b.y + b.dy - (lp.y + lp.height / 2)) * (1 / 10),
        x := lp.x + lp.width + b.radius } := by
    unfold Ball.hitLeft
    rw [if_pos]
    · simp only [Ball.integrate_dx, Ball.integrate_y, Ball.integrate_radius]
    · simp only [Ball.integrate_dx, Ball.integrate_y, Ball.integrate_radius, Ball.integrate_x]
      exact ⟨hdx, hx, hy1, hy2⟩
  have h2 : Ball.hitRight rp (Ball.hitLeft lp (Ball.integrate c b)) =
      Ball.hitLeft lp (Ball.integrate c b) := by
    unfold Ball.hitRight
    rw [if_neg]
    rw [h1]
    simp only [Ball.integrate_y, Ball.integrate_radius]
    intro h
    exact hright ⟨h.2.1, h.2.2.1, h.2.2.2⟩
  unfold Ball.update
  dsimp only
  rw [h2, h1]
  unfold Ball.scoreRight
  rw [if_neg]
  · unfold Ball.scoreLeft
    rw [if_neg]
    · dsimp only; ring
    · simp only [Ball.integrate_radius]; linarith
  · simp only [Ball.integrate_radius]; linarith

/-- Witness: the amended C2 on a fresh 600 x 400 game, the ball arriving at the
left paddle with dx = -3. -/
theorem Ball.update_left_bounce_witness :
    (Ball.update ⟨600, 400⟩ ⟨22, 200, 5, -3, 1⟩ (Paddle.new 10 175) (Paddle.new 585 175) 0).ball.dx
      = -(11 / 10) * (-3) :=
  Ball.update_left_bounce ⟨600, 400⟩ ⟨22, 200, 5, -3, 1⟩ (Paddle.new 10 175) (Paddle.new 585 175) 0
    (by decide!) (by decide!) (by decide!) (by decide!) (by decide!) (by decide!) (by decide!)

/-! ## C3: the clamp -/

theorem Ball.update_leftPaddle_y (c : Canvas) (b : Ball) (lp rp : Paddle) (t : ℕ) :
    (Ball.update c b lp rp t).leftPaddle.y = lp.y := by
  rcases Ball.update_leftPaddle c b lp rp t with h | h <;> rw [h]

theorem Ball.update_leftPaddle_height (c : Canvas) (b : Ball) (lp rp : Paddle) (t : ℕ) :
    (Ball.update c b lp rp t).leftPaddle.height = lp.height := by
  rcases Ball.update_leftPaddle c b lp rp t with h | h <;> rw [h]

theorem Ball.update_rightPaddle_y (c : Canvas) (b : Ball) (lp rp : Paddle) (t : ℕ) :
    (Ball.update c b lp rp t).rightPaddle.y = rp.y := by
  rcases Ball.update_rightPaddle c b lp rp t with h | h <;> rw [h]

theorem Ball.update_rightPaddle_height (c : Canvas) (b : Ball) (lp rp : Paddle) (t : ℕ) :
    (Ball.update c b lp rp t).rightPaddle.height = rp.height := by
  rcases Ball.update_rightPaddle c b lp rp t with h | h <;> rw [h]

theorem Ball.update_rightPaddle_dy (c : Canvas) (b : Ball) (lp rp : Paddle) (t : ℕ) :
    (Ball.update c b lp rp t).rightPaddle.dy = rp.dy := by
  rcases Ball.update_rightPaddle c b lp rp t with h | h <;> rw [h]

/-- The paddles after a frame of a game that is not over: the court that
`Ball.update` returns, whatever the win test then decides. -/
theorem Game.update_paddles (g : Game) (h : g.gameOver = false) :
    (g.update).leftPaddle =
      (Ball.update g.canvas g.ball (g.leftPaddle.update g.canvas)
        (Paddle.update g.canvas { g.rightPaddle with
          y := g.rightPaddle.y +
            (g.ball.y - (g.rightPaddle.y + g.rightPaddle.height / 2)) * (2 / 25) })
        g.timers).leftPaddle ∧
    (g.update).rightPaddle =
      (Ball.update g.canvas g.ball (g.leftPaddle.update g.canvas)
        (Paddle.update g.canvas { g.rightPaddle with
          y := g.rightPaddle.y +
            (g.ball.y - (g.rightPaddle.y + g.rightPaddle.height / 2)) * (2 / 25) })
        g.timers).rightPaddle := by
  unfold Game.update
  rw [h]
  dsimp only
  rw [if_neg (by simp)]
  split <;> exact ⟨rfl, rfl⟩

/-- The canvas is not touched by a frame. -/
theorem Game.update_canvas (g : Game) : (g.update).canvas = g.canvas := by
  unfold Game.update
  split
  · rfl
  · dsimp only; split <;> rfl

/-- The clamp of `Paddle.update` lands in `[0, H - height]` when that interval is
not empty. -/
theorem Paddle.update_clamped (c : Canvas) (p : Paddle) (h : p.height ≤ (c.height : ℚ)) :
    0 ≤ (p.update c).y ∧ (p.update c).y ≤ (c.height : ℚ) - (p.update c).height := by
  rw [Paddle.update_y, Paddle.update_height]
  refine ⟨le_max_right _ _, max_le (min_le_right _ _) ?_⟩
  linarith

/-- C3 fails as stated: on a canvas 40 high (lower than the paddle height 50) the
left paddle of a fresh game is at y = 0 after one frame, which is above
`playfieldHeight - paddleHeight = -10`. -/
theorem Game.update_clamp_fails_on_low_canvas :
    (Game.new ⟨300, 150⟩ (some ⟨300, 40⟩)).gameOver = false ∧
    ¬ ((Game.new ⟨300, 150⟩ (some ⟨300, 40⟩)).update.leftPaddle.y ≤
        ((Game.new ⟨300, 150⟩ (some ⟨300, 40⟩)).update.canvas.height : ℚ) -
          (Game.new ⟨300, 150⟩ (some ⟨300, 40⟩)).update.leftPaddle.height) := by
  decide!

/-- C3, amended: in a game that is not over and whose canvas is at least as high
as each paddle, after one frame both paddles satisfy
`0 ≤ y ≤ playfieldHeight - paddleHeight`. -/
theorem Game.update_clamp (g : Game) (hgo : g.gameOver = false)
    (hl : g.leftPaddle.height ≤ (g.canvas.height : ℚ))
    (hr : g.rightPaddle.height ≤ (g.canvas.height : ℚ)) :
    (0 ≤ (g.update).leftPaddle.y ∧
      (g.update).leftPaddle.y ≤ ((g.update).canvas.height : ℚ) - (g.update).leftPaddle.height) ∧
    (0 ≤ (g.update).rightPaddle.y ∧
      (g.update).rightPaddle.y ≤ ((g.update).canvas.height : ℚ) - (g.update).rightPaddle.height) := by
  obtain ⟨h1, h2⟩ := Game.update_paddles g hgo
  rw [h1, h2, Game.update_canvas, Ball.update_leftPaddle_y, Ball.update_leftPaddle_height,
    Ball.update_rightPaddle_y, Ball.update_rightPaddle_height]
  exact ⟨Paddle.update_clamped g.canvas g.leftPaddle hl,
    Paddle.update_clamped g.canvas _ hr⟩

/-- Witness: the amended C3 on a fresh 600 x 400 game. -/
theorem Game.update_clamp_witness :
    (0 ≤ (Game.new ⟨300, 150⟩ (some ⟨600, 400⟩)).update.leftPaddle.y ∧
      (Game.new ⟨300, 150⟩ (some ⟨600, 400⟩)).update.leftPaddle.y ≤
        ((Game.new ⟨300, 150⟩ (some ⟨600, 400⟩)).update.canvas.height : ℚ) -
          (Game.new ⟨300, 150⟩ (some ⟨600, 400⟩)).update.leftPaddle.height) ∧
    (0 ≤ (Game.new ⟨300, 150⟩ (some ⟨600, 400⟩)).update.rightPaddle.y ∧
      (Game.new ⟨300, 150⟩ (some ⟨600, 400⟩)).update.rightPaddle.y ≤
        ((Game.new ⟨300, 150⟩ (some ⟨600, 400⟩)).update.canvas.height : ℚ) -
          (Game.new ⟨300, 150⟩ (some ⟨600, 400⟩)).update.rightPaddle.height) :=
  Game.update_clamp (Game.new ⟨300, 150⟩ (some ⟨600, 400⟩)) (by decide!) (by decide!) (by decide!)

/-! ## C4: win detection -/

/-- C4: after a frame of a game that was not over, a left score of 5 or more
means game over with winner "Player 1"; otherwise a right score of 5 or more
means game over with winner "CPU"; otherwise the game is still not over and
the winner is unchanged (null when it was null). -/
theorem Game.update_win_detection (g : Game) (hgo : g.gameOver = false) :
    (5 ≤ (g.update).leftPaddle.score →
      (g.update).gameOver = true ∧ (g.update).winner = some "Player 1") ∧
    ((g.update).leftPaddle.score < 5 → 5 ≤ (g.update).rightPaddle.score →
      (g.update).gameOver = true ∧ (g.update).winner = some "CPU") ∧
    ((g.update).leftPaddle.score < 5 → (g.update).rightPaddle.score < 5 →
      (g.update).gameOver = false ∧ (g.update).winner = g.winner ∧
        (g.winner = none → (g.update).winner = none)) := by
  unfold Game.update
  rw [hgo]
  simp only [Bool.false_eq_true, if_false, WINNING_SCORE]
  split
  · rename_i hwin
    dsimp only at hwin ⊢
    refine ⟨fun hl => ⟨rfl, by rw [if_pos hl]⟩, fun hl _ => ⟨rfl, ?_⟩, fun hl hr => ?_⟩
    · rw [if_neg (by omega)]
    · omega
  · rename_i hwin
    dsimp only at hwin ⊢
    refine ⟨fun hl => ?_, fun _ hr => ?_, fun _ _ => ⟨rfl, rfl, fun h => h⟩⟩
    · exact absurd (Or.inl hl) hwin
    · exact absurd (Or.inr hr) hwin

/-- Witness: C4 on the two scenarios of the claim.  The left score reaches 5 with
the right score at 3: winner "Player 1".  The right score reaches 5 with
the left score at 4: winner "CPU". -/
theorem Game.update_win_detection_witness :
    (leftAboutToWin.leftPaddle.score = 4 ∧
      (leftAboutToWin.update).leftPaddle.score = 5 ∧
      (leftAboutToWin.update).rightPaddle.score = 3 ∧
      (leftAboutToWin.update).gameOver = true ∧
      (leftAboutToWin.update).winner = some "Player 1") ∧
    (rightAboutToWin.rightPaddle.score = 4 ∧
      (rightAboutToWin.update).rightPaddle.score = 5 ∧
      (rightAboutToWin.update).leftPaddle.score = 4 ∧
      (rightAboutToWin.update).gameOver = true ∧
      (rightAboutToWin.update).winner = some "CPU") :=
  ⟨⟨by decide!, by decide!, by decide!,
      (Game.update_win_detection leftAboutToWin (by decide!)).1 (by decide!)⟩,
    ⟨by decide!, by decide!, by decide!,
      (Game.update_win_detection rightAboutToWin (by decide!)).2.1 (by decide!) (by decide!)⟩⟩

/-! ## C5: `Ball.reset` and the serve -/

/-- C5: `Ball.reset` puts the ball at the centre `(W/2, H/2)` of the canvas with
velocity `(0, 0)` at once; the serve callback, for random draws `r1`, `r2` in
`[0, 1)`, then gives it dx = 3 or dx = -3 and a dy with `-2 ≤ dy < 2`. -/
theorem Ball.reset_then_serve (c : Canvas) (b : Ball) (t : ℕ) (r1 r2 : ℚ)
    (_h1 : 0 ≤ r1) (_h1u : r1 < 1) (h2 : 0 ≤ r2) (h2u : r2 < 1) :
    ((Ball.reset c b t).1.x = (c.width : ℚ) / 2 ∧ (Ball.reset c b t).1.y = (c.height : ℚ) / 2 ∧
      (Ball.reset c b t).1.dx = 0 ∧ (Ball.reset c b t).1.dy = 0) ∧
    (((Ball.reset c b t).1.serve r1 r2).dx = 3 ∨ ((Ball.reset c b t).1.serve r1 r2).dx = -3) ∧
    ((Ball.reset c b t).1.serve r1 r2).dx ≠ 0 ∧
    |((Ball.reset c b t).1.serve r1 r2).dx| = 3 ∧
    -2 ≤ ((Ball.reset c b t).1.serve r1 r2).dy ∧ ((Ball.reset c b t).1.serve r1 r2).dy < 2 := by
  refine ⟨⟨rfl, rfl, rfl, rfl⟩, ?_⟩
  unfold Ball.serve
  dsimp only
  refine ⟨?_, ?_, ?_, by linarith, by linarith⟩
  · split
    · left; rfl
    · right; rfl
  · split <;> norm_num
  · split <;> norm_num

/-- Witness: C5 on a 600 x 400 canvas with the draws 3/4 and 1/4. -/
theorem Ball.reset_then_serve_witness :
    ((Ball.reset ⟨600, 400⟩ ⟨597, 100, 5, 3, 1⟩ 0).1.x = ((600 : ℕ) : ℚ) / 2 ∧
      (Ball.reset ⟨600, 400⟩ ⟨597, 100, 5, 3, 1⟩ 0).1.y = ((400 : ℕ) : ℚ) / 2 ∧
      (Ball.reset ⟨600, 400⟩ ⟨597, 100, 5, 3, 1⟩ 0).1.dx = 0 ∧
      (Ball.reset ⟨600, 400⟩ ⟨597, 100, 5, 3, 1⟩ 0).1.dy = 0) ∧
    (((Ball.reset ⟨600, 400⟩ ⟨597, 100, 5, 3, 1⟩ 0).1.serve (3 / 4) (1 / 4)).dx = 3 ∨
      ((Ball.reset ⟨600, 400⟩ ⟨597, 100, 5, 3, 1⟩ 0).1.serve (3 / 4) (1 / 4)).dx = -3) ∧
    ((Ball.reset ⟨600, 400⟩ ⟨597, 100, 5, 3, 1⟩ 0).1.serve (3 / 4) (1 / 4)).dx ≠ 0 ∧
    |((Ball.reset ⟨600, 400⟩ ⟨597, 100, 5, 3, 1⟩ 0).1.serve (3 / 4) (1 / 4)).dx| = 3 ∧
    -2 ≤ ((Ball.reset ⟨600, 400⟩ ⟨597, 100, 5, 3, 1⟩ 0).1.serve (3 / 4) (1 / 4)).dy ∧
    ((Ball.reset ⟨600, 400⟩ ⟨597, 100, 5, 3, 1⟩ 0).1.serve (3 / 4) (1 / 4)).dy < 2 :=
  Ball.reset_then_serve ⟨600, 400⟩ ⟨597, 100, 5, 3, 1⟩ 0 (3 / 4) (1 / 4)
    (by decide!) (by decide!) (by decide!) (by decide!)

/-! ## C6: `resetGame` -/

/-- C6: `resetGame`, from any state (a finished game in particular), gives scores
0 and 0, `gameOver = false`, `winner = null`, the left paddle at
`y = playfieldHeight/2 - 25`, and the right paddle's y where it was. -/
theorem Game.resetGame_spec (g : Game) :
    (g.resetGame).leftPaddle.score = 0 ∧ (g.resetGame).rightPaddle.score = 0 ∧
    (g.resetGame).gameOver = false ∧ (g.resetGame).winner = none ∧
    (g.resetGame).leftPaddle.y = (g.canvas.height : ℚ) / 2 - 25 ∧
    (g.resetGame).rightPaddle.y = g.rightPaddle.y := by
  refine ⟨rfl, rfl, rfl, rfl, ?_, rfl⟩
  unfold Game.resetGame PADDLE_HEIGHT
  norm_num

/-! ## C8: `resizeCanvas` -/

/-- C8: `resizeCanvas` with a container of size `W x H` sets the canvas to
`W x H` and the right paddle's x to `W - PADDLE_WIDTH - 10 = W - 15`, and its
drawing calls are those of the game-over overlay (on the new state, and not
empty) when the game is over, none otherwise. -/
theorem Game.resizeCanvas_spec (g : Game) (W H : ℕ) :
    (g.resizeCanvas (some ⟨W, H⟩)).1.canvas = ⟨W, H⟩ ∧
    (g.resizeCanvas (some ⟨W, H⟩)).1.rightPaddle.x = (W : ℚ) - PADDLE_WIDTH - 10 ∧
    (g.resizeCanvas (some ⟨W, H⟩)).1.rightPaddle.x = (W : ℚ) - 15 ∧
    (g.resizeCanvas (some ⟨W, H⟩)).1.gameOver = g.gameOver ∧
    (g.resizeCanvas (some ⟨W, H⟩)).2 =
      (if g.gameOver then (g.resizeCanvas (some ⟨W, H⟩)).1.drawGameOver else []) ∧
    (g.resizeCanvas (some ⟨W, H⟩)).1.drawGameOver ≠ [] := by
  have hx : (W : ℚ) - PADDLE_WIDTH - 10 = (W : ℚ) - 15 := by
    unfold PADDLE_WIDTH; ring
  cases hgo : g.gameOver
  · have hres : g.resizeCanvas (some ⟨W, H⟩) =
        ({ g with canvas := ⟨W, H⟩,
                  rightPaddle := { g.rightPaddle with x := (W : ℚ) - PADDLE_WIDTH - 10 } }, []) := by
      unfold Game.resizeCanvas
      dsimp only
      rw [hgo]
      rfl
    rw [hres]
    refine ⟨rfl, rfl, hx, hgo, ?_, ?_⟩
    · simp
    · simp [Game.drawGameOver]
  · have hres : g.resizeCanvas (some ⟨W, H⟩) =
        ({ g with canvas := ⟨W, H⟩,
                  rightPaddle := { g.rightPaddle with x := (W : ℚ) - PADDLE_WIDTH - 10 } },
          Game.drawGameOver
            { g with canvas := ⟨W, H⟩,
                     rightPaddle := { g.rightPaddle with x := (W : ℚ) - PADDLE_WIDTH - 10 } }) := by
      unfold Game.resizeCanvas
      dsimp only
      rw [hgo]
      rfl
    rw [hres]
    refine ⟨rfl, rfl, hx, hgo, ?_, ?_⟩
    · simp
    · simp [Game.drawGameOver]

/-! ## Reachable states -/

/-- Running valid events from a reachable state gives a reachable state. -/
theorem Reachable.run {g : Game} (hg : Reachable g) (es : List Event)
    (hv : ∀ e ∈ es, e.Valid) : Reachable (g.run es) := by
  induction es generalizing g with
  | nil => exact hg
  | cons e es ih =>
    have he : e.Valid := hv e (List.mem_cons_self e es)
    have hes : ∀ e1 ∈ es, e1.Valid := fun e1 h1 => hv e1 (List.mem_cons_of_mem e h1)
    exact ih (Reachable.step e g hg he) hes

theorem Game.frame_rightPaddle_dy (g : Game) : (g.update).rightPaddle.dy = g.rightPaddle.dy := by
  cases hgo : g.gameOver
  · rw [(Game.update_paddles g hgo).2, Ball.update_rightPaddle_dy, Paddle.update_dy]
  · unfold Game.update
    rw [if_pos hgo]

theorem Game.handleKeyDown_rightPaddle_dy (k : String) (g : Game) :
    (g.handleKeyDown k).rightPaddle.dy = g.rightPaddle.dy := by
  unfold Game.handleKeyDown
  split
  · rfl
  · split
    · rfl
    · split <;> rfl

/-- The start button on a running game: `resetGame` when the game is over,
nothing otherwise. -/
theorem Game.step_start (g : Game) :
    g.step Event.start = if g.gameOver then g.resetGame else g := by
  unfold Game.step startOrRestartGame
  cases hgo : g.gameOver <;> simp [hgo]

/-- No event gives the right paddle a velocity of its own. -/
theorem Game.step_rightPaddle_dy (e : Event) (g : Game) :
    (g.step e).rightPaddle.dy = g.rightPaddle.dy := by
  cases e with
  | frame => exact Game.frame_rightPaddle_dy g
  | keyDown k => exact Game.handleKeyDown_rightPaddle_dy k g
  | keyUp k =>
    show (g.handleKeyUp k).rightPaddle.dy = _
    unfold Game.handleKeyUp
    split <;> rfl
  | press d => rfl
  | release => rfl
  | start =>
    rw [Game.step_start]
    split <;> rfl
  | resize screen =>
    show (g.resizeCanvas screen).1.rightPaddle.dy = _
    unfold Game.resizeCanvas
    cases screen with
    | none => rfl
    | some s => dsimp only; split <;> rfl
  | serve r1 r2 =>
    show (g.fireServe r1 r2).rightPaddle.dy = _
    unfold Game.fireServe
    split <;> rfl

/-- In every reachable state the right paddle's own velocity `dy` is 0: the
constructor sets it to 0 and nothing ever assigns it. -/
theorem Reachable.rightPaddle_dy {g : Game} (hg : Reachable g) : g.rightPaddle.dy = 0 := by
  induction hg with
  | init c0 screen => rfl
  | step e g _ _ ih => rw [Game.step_rightPaddle_dy, ih]

/-! ## C7: the opponent heuristic -/

/-- C7: in a frame of a reachable game that is not over, the right paddle's new y
is `max (min (y + 0.08 * (ball.y - (y + height/2))) (playfieldHeight - height)) 0`,
with `ball.y` the ball's position before the ball moves in that frame. -/
theorem Game.update_opponent_heuristic (g : Game) (hg : Reachable g)
    (hgo : g.gameOver = false) :
    (g.update).rightPaddle.y =
      max (min (g.rightPaddle.y +
          2 / 25 * (g.ball.y - (g.rightPaddle.y + g.rightPaddle.height / 2)))
        ((g.canvas.height : ℚ) - g.rightPaddle.height)) 0 := by
  rw [(Game.update_paddles g hgo).2, Ball.update_rightPaddle_y, Paddle.update_y]
  dsimp only
  rw [Reachable.rightPaddle_dy hg, add_zero, mul_comm]

/-- Witness: C7 two frames into a rally on a 600 x 400 canvas; the right paddle
moves from y = 175.12 to y = 175.3504, towards the ball at y = 203. -/
theorem Game.update_opponent_heuristic_witness :
    (rally.rightPaddle.y = 4378 / 25 ∧ rally.ball.y = 203 ∧
      (rally.update).rightPaddle.y = 109594 / 625) ∧
    (rally.update).rightPaddle.y =
      max (min (rally.rightPaddle.y +
          2 / 25 * (rally.ball.y - (rally.rightPaddle.y + rally.rightPaddle.height / 2)))
        ((rally.canvas.height : ℚ) - rally.rightPaddle.height)) 0 :=
  ⟨by decide!,
    Game.update_opponent_heuristic rally
      (Reachable.run (Reachable.init ⟨300, 150⟩ (some ⟨600, 400⟩)) _ (by decide!))
      (by decide!)⟩

/-! ## C9: two pending serves -/

theorem raceMatchPoint_reachable : Reachable raceMatchPoint :=
  Reachable.run (Reachable.init ⟨300, 150⟩ (some ⟨60, 200⟩)) raceLead (by decide!)

theorem raceEnd_reachable : Reachable raceEnd :=
  Reachable.step Event.frame raceMatchPoint raceMatchPoint_reachable trivial

/-- C9: `Ball.reset` always adds a pending serve and never removes one, and
there is a run of events from a fresh game in which the frame that ends the
match leaves the serve of its scoring reset pending, `r` is pressed before
it fires, two serves are then pending at once, the first one fires and
sends the ball off, and the second one fires while the ball is in flight
and replaces the velocity that the first one assigned. -/
theorem serve_race :
    (∀ (c : Canvas) (b : Ball) (t : ℕ), (Ball.reset c b t).2 = t + 1) ∧
    (Reachable raceSecondServe ∧
      raceSecondServe = (raceStart.run raceLead).run [Event.frame, Event.keyDown "r",
        Event.serve (3 / 4) (1 / 2), Event.frame, Event.serve 0 0]) ∧
    (raceMatchPoint.gameOver = false ∧ raceMatchPoint.rightPaddle.score = 4 ∧
      raceMatchPoint.timers = 0) ∧
    (raceEnd.gameOver = true ∧ raceEnd.rightPaddle.score = 5 ∧ raceEnd.timers = 1) ∧
    (raceRestarted = raceEnd.resetGame ∧ raceRestarted.gameOver = false ∧
      raceRestarted.timers = 2) ∧
    (raceFirstServe.timers = 1 ∧ raceFirstServe.ball.dx = 3 ∧ raceFirstServe.ball.dy = 0) ∧
    (raceInFlight.timers = 1 ∧ raceInFlight.ball.x = 33 ∧
      raceInFlight.ball.x ≠ (raceInFlight.canvas.width : ℚ) / 2 ∧
      raceInFlight.ball.dx = 3 ∧ raceInFlight.ball.dy = 0) ∧
    (raceSecondServe.timers = 0 ∧ raceSecondServe.ball.x = 33 ∧
      raceSecondServe.ball.dx = -3 ∧ raceSecondServe.ball.dy = -2 ∧
      raceSecondServe.ball.dx ≠ raceInFlight.ball.dx) := by
  refine ⟨fun _ _ _ => rfl, ⟨?_, by decide!⟩, by decide!, by decide!, by decide!, by decide!,
    by decide!, by decide!⟩
  exact Reachable.step _ _ (Reachable.step _ _ (Reachable.step _ _
    (Reachable.step _ _ raceEnd_reachable trivial) (by decide!)) trivial) (by decide!)

/-! ## C10: the scores and the end of the match -/

/-- One frame adds at most one point to each score, and a frame of a finished
game changes nothing. -/
theorem Game.update_scores (g : Game) (hgo : g.gameOver = false) :
    ((g.update).leftPaddle.score = g.leftPaddle.score ∨
      (g.update).leftPaddle.score = g.leftPaddle.score + 1) ∧
    ((g.update).rightPaddle.score = g.rightPaddle.score ∨
      (g.update).rightPaddle.score = g.rightPaddle.score + 1) := by
  obtain ⟨h1, h2⟩ := Game.update_paddles g hgo
  rw [h1, h2]
  constructor
  · rcases Ball.update_leftPaddle g.canvas g.ball (g.leftPaddle.update g.canvas)
      (Paddle.update g.canvas { g.rightPaddle with
        y := g.rightPaddle.y +
          (g.ball.y - (g.rightPaddle.y + g.rightPaddle.height / 2)) * (2 / 25) })
      g.timers with h | h
    · left; rw [h]; rfl
    · right; rw [h]; rfl
  · rcases Ball.update_rightPaddle g.canvas g.ball (g.leftPaddle.update g.canvas)
      (Paddle.update g.canvas { g.rightPaddle with
        y := g.rightPaddle.y +
          (g.ball.y - (g.rightPaddle.y + g.rightPaddle.height / 2)) * (2 / 25) })
      g.timers with h | h
    · left; rw [h]; rfl
    · right; rw [h]; rfl

/-- The win test at the end of a frame of a game that was not over. -/
theorem Game.update_flags (g : Game) (hgo : g.gameOver = false) :
    ((g.update).gameOver = true ↔
      5 ≤ (g.update).leftPaddle.score ∨ 5 ≤ (g.update).rightPaddle.score) ∧
    ((g.update).gameOver = true → (g.update).winner ≠ none) ∧
    ((g.update).gameOver = false → (g.update).winner = g.winner) := by
  unfold Game.update
  rw [hgo]
  simp only [Bool.false_eq_true, if_false, WINNING_SCORE]
  split
  · rename_i hwin
    dsimp only at hwin ⊢
    exact ⟨⟨fun _ => hwin, fun _ => rfl⟩, fun _ => by simp, fun h => by simp at h⟩
  · rename_i hwin
    dsimp only at hwin ⊢
    exact ⟨⟨fun h => by simp at h, fun h => absurd h hwin⟩, fun h => by simp at h,
      fun _ => rfl⟩

/-- The state after `resetGame` as far as the match is concerned. -/
theorem Game.resetGame_flags (g : Game) :
    (g.resetGame).leftPaddle.score = 0 ∧ (g.resetGame).rightPaddle.score = 0 ∧
    (g.resetGame).gameOver = false ∧ (g.resetGame).winner = none :=
  ⟨rfl, rfl, rfl, rfl⟩

theorem Game.handleKeyDown_match (k : String) (g : Game) :
    g.handleKeyDown k = g.resetGame ∨
    ((g.handleKeyDown k).leftPaddle.score = g.leftPaddle.score ∧
      (g.handleKeyDown k).rightPaddle.score = g.rightPaddle.score ∧
      (g.handleKeyDown k).gameOver = g.gameOver ∧ (g.handleKeyDown k).winner = g.winner) := by
  unfold Game.handleKeyDown
  split
  · left; rfl
  · right
    split
    · exact ⟨rfl, rfl, rfl, rfl⟩
    · split <;> exact ⟨rfl, rfl, rfl, rfl⟩

theorem Game.handleKeyUp_match (k : String) (g : Game) :
    (g.handleKeyUp k).leftPaddle.score = g.leftPaddle.score ∧
    (g.handleKeyUp k).rightPaddle.score = g.rightPaddle.score ∧
    (g.handleKeyUp k).gameOver = g.gameOver ∧ (g.handleKeyUp k).winner = g.winner := by
  unfold Game.handleKeyUp
  split <;> exact ⟨rfl, rfl, rfl, rfl⟩

theorem Game.resizeCanvas_match (screen : Option Canvas) (g : Game) :
    (g.resizeCanvas screen).1.leftPaddle.score = g.leftPaddle.score ∧
    (g.resizeCanvas screen).1.rightPaddle.score = g.rightPaddle.score ∧
    (g.resizeCanvas screen).1.gameOver = g.gameOver ∧
    (g.resizeCanvas screen).1.winner = g.winner := by
  unfold Game.resizeCanvas
  cases screen with
  | none => exact ⟨rfl, rfl, rfl, rfl⟩
  | some s => dsimp only; split <;> exact ⟨rfl, rfl, rfl, rfl⟩

theorem Game.fireServe_match (r1 r2 : ℚ) (g : Game) :
    (g.fireServe r1 r2).leftPaddle.score = g.leftPaddle.score ∧
    (g.fireServe r1 r2).rightPaddle.score = g.rightPaddle.score ∧
    (g.fireServe r1 r2).gameOver = g.gameOver ∧ (g.fireServe r1 r2).winner = g.winner := by
  unfold Game.fireServe
  split <;> exact ⟨rfl, rfl, rfl, rfl⟩

/-- Events other than a frame and a restart leave scores, `gameOver` and `winner`
alone; a restart is `resetGame`. -/
theorem Game.step_match (e : Event) (g : Game) :
    g.step e = g.update ∨ g.step e = g.resetGame ∨
    ((g.step e).leftPaddle.score = g.leftPaddle.score ∧
      (g.step e).rightPaddle.score = g.rightPaddle.score ∧
      (g.step e).gameOver = g.gameOver ∧ (g.step e).winner = g.winner) := by
  cases e with
  | frame => left; rfl
  | keyDown k =>
    right
    rcases Game.handleKeyDown_match k g with h | h
    · left; exact h
    · right; exact h
  | keyUp k => right; right; exact Game.handleKeyUp_match k g
  | press d => right; right; exact ⟨rfl, rfl, rfl, rfl⟩
  | release => right; right; exact ⟨rfl, rfl, rfl, rfl⟩
  | start =>
    rw [Game.step_start]
    split
    · right; left; rfl
    · right; right; exact ⟨rfl, rfl, rfl, rfl⟩
  | resize screen => right; right; exact Game.resizeCanvas_match screen g
  | serve r1 r2 => right; right; exact Game.fireServe_match r1 r2 g

/-- C10: in every state reachable from a freshly constructed game, both scores
are at most 5, `gameOver` holds exactly when a score equals 5, and `winner` is
non-null exactly when `gameOver` holds. -/
theorem Reachable.match_invariant (g : Game) (hg : Reachable g) :
    (g.leftPaddle.score ≤ 5 ∧ g.rightPaddle.score ≤ 5) ∧
    (g.gameOver = true ↔ g.leftPaddle.score = 5 ∨ g.rightPaddle.score = 5) ∧
    (g.winner ≠ none ↔ g.gameOver = true) := by
  induction hg with
  | init c0 screen =>
    refine ⟨⟨Nat.zero_le 5, Nat.zero_le 5⟩, ?_, ?_⟩
    · show (false = true ↔ (0 : ℕ) = 5 ∨ (0 : ℕ) = 5)
      simp
    · show ((none : Option String) ≠ none ↔ false = true)
      simp
  | step e g _ _ ih =>
    obtain ⟨⟨hl, hr⟩, hover, hwin⟩ := ih
    rcases Game.step_match e g with h | h | ⟨h1, h2, h3, h4⟩
    · rw [h]
      rcases Bool.eq_false_or_eq_true g.gameOver with hgo | hgo
      swap
      · obtain ⟨hs1, hs2⟩ := Game.update_scores g hgo
        obtain ⟨hf1, hf2, hf3⟩ := Game.update_flags g hgo
        have hl4 : g.leftPaddle.score ≠ 5 := fun h5 => by
          have := hover.2 (Or.inl h5); rw [hgo] at this; exact Bool.noConfusion this
        have hr4 : g.rightPaddle.score ≠ 5 := fun h5 => by
          have := hover.2 (Or.inr h5); rw [hgo] at this; exact Bool.noConfusion this
        have hw0 : g.winner = none := by
          by_contra hne
          have := hwin.1 hne; rw [hgo] at this; exact Bool.noConfusion this
        refine ⟨⟨by omega, by omega⟩, ?_, ?_⟩
        · rw [hf1]; omega
        · constructor
          · intro hne
            by_contra hno
            have hfalse : (g.update).gameOver = false := by
              cases hu : (g.update).gameOver
              · rfl
              · exact absurd hu hno
            exact hne ((hf3 hfalse).trans hw0)
          · exact hf2
      · have hsame : g.update = g := by
          unfold Game.update
          rw [if_pos hgo]
        rw [hsame]
        exact ⟨⟨hl, hr⟩, hover, hwin⟩
    · rw [h]
      obtain ⟨r1, r2, r3, r4⟩ := Game.resetGame_flags g
      rw [r1, r2, r3, r4]
      simp
    · rw [h1, h2, h3, h4]
      exact ⟨⟨hl, hr⟩, hover, hwin⟩

/-- Witness: C10 at the end of a match played on a 60 x 200 canvas, where the
right score is 5, the left score 0, and the game is over with a winner. -/
theorem Reachable.match_invariant_witness :
    (raceEnd.rightPaddle.score = 5 ∧ raceEnd.gameOver = true ∧ raceEnd.winner = some "CPU") ∧
    ((raceEnd.leftPaddle.score ≤ 5 ∧ raceEnd.rightPaddle.score ≤ 5) ∧
      (raceEnd.gameOver = true ↔ raceEnd.leftPaddle.score = 5 ∨ raceEnd.rightPaddle.score = 5) ∧
      (raceEnd.winner ≠ none ↔ raceEnd.gameOver = true)) :=
  ⟨by decide!, Reachable.match_invariant raceEnd raceEnd_reachable⟩

end Pong
